import Mathlib

/-!
Shallow embedding of the two Flask servers of the `arpavibe` repository:
`src/app.py` (a minimal `/convert` handler) and
`src/youtube_converter_server.py` (`/ping`, `/convert`, `/info`).

The external media adapter (`yt_dlp.YoutubeDL`) is modelled as an opaque
behaviour parameter: a download either raises an exception carrying a
message or completes, in which case a flag records whether the expected
output file was produced.  The file system is a set of paths, threaded
through each handler.  Each handler returns either an HTTP response or an
exception that escaped the handler body, together with the final file
system, the log entries it emitted, and the list of adapter configurations
it passed to the adapter.
-/

namespace ArpaVibe

/-- JSON-like values appearing in request and response bodies. -/
inductive JVal
  | str (s : String)
  | num (n : Int)
  | null
deriving DecidableEq, Repr

/-- A JSON object, as an ordered list of key/value pairs. -/
abbrev JObj := List (String × JVal)

/-- An HTTP response body: a JSON object, or a file attachment as produced
by Flask `send_file` (path on disk, download name, MIME type). -/
inductive RBody
  | json (o : JObj)
  | file (path : String) (downloadName : String) (mime : Option String)
deriving DecidableEq, Repr

structure HttpResponse where
  status : Nat
  body : RBody
deriving DecidableEq, Repr

/-- Outcome of running a handler on a request: a response, or an exception
that escaped the handler body (left for the framework to turn into a
generic non-JSON error page). -/
inductive HandlerResult
  | resp (r : HttpResponse)
  | escaped (exn : String)
deriving DecidableEq, Repr

/-- The JSON error body produced by jsonify with a single error field. -/
def errBody (msg : String) : RBody := .json [("error", .str msg)]

inductive LogLevel
  | info
  | warning
  | error
deriving DecidableEq, Repr

abbrev LogEntry := LogLevel × String

/-- One post-processing stage of the adapter configuration.  `app.py` omits
`preferredquality`, hence the `Option`. -/
structure PostProcessor where
  key : String
  preferredcodec : String
  preferredquality : Option String
deriving DecidableEq, Repr

/-- The adapter configuration dictionary (`ydl_opts`).  Flags that a source
file does not set are `none`. -/
structure YdlOpts where
  format : String
  postprocessors : List PostProcessor
  outtmpl : String
  quiet : Option Bool
  no_warnings : Option Bool
  noprogress : Option Bool
deriving DecidableEq, Repr

/-- The JSON body of a convert request, as seen by the handler:
the body may fail to parse, parse to `null`, or parse to an object whose
`url` field is absent or a string. -/
inductive JsonBody
  | invalid
  | jnull
  | obj (url : Option String)
deriving DecidableEq, Repr

/-- Behaviour of one adapter download call: it raises with a message, or it
completes, `wrote` recording whether the expected output file appeared. -/
inductive DlOutcome
  | raises (msg : String)
  | completes (wrote : Bool)
deriving DecidableEq, Repr

/-- Environment of one convert request: the download outcome, whether a
later `os.remove` of the output file raises (and with which message), and
the metadata the adapter extracts internally (discarded by `download`,
hence never read by either handler). -/
structure ConvertBehavior where
  outcome : DlOutcome
  rmFails : Bool
  rmMsg : String
  meta : JObj
deriving DecidableEq, Repr

/-- The file system, as the set of existing paths. -/
abbrev FileSystem := List String

/-- Model of `os.path.exists`. -/
def existsPath (p : String) (fs : FileSystem) : Bool := fs.contains p

/-- Model of `os.remove` (successful case). -/
def removePath (p : String) (fs : FileSystem) : FileSystem :=
  fs.filter (fun q => q ≠ p)

/-- Creation of a file at path `p`. -/
def addPath (p : String) (fs : FileSystem) : FileSystem := p :: fs

/-- The character sequence of the pattern `".mp3"`. -/
def mp3pat : List Char := ['.', 'm', 'p', '3']

/-- Python `s.replace(".mp3", "")` on the character list: scan left to
right, deleting each (non-overlapping) occurrence of `".mp3"`. -/
def stripMp3 : List Char → List Char
  | '.' :: 'm' :: 'p' :: '3' :: cs => stripMp3 cs
  | c :: cs => c :: stripMp3 cs
  | [] => []

/-- Python `s.replace(".mp3", "")` on strings. -/
def removeMp3 (s : String) : String := ⟨stripMp3 s.data⟩

/-- Model of `os.path.basename`: everything after the last slash. -/
def basename (p : String) : String :=
  ⟨(p.data.reverse.takeWhile (fun c => c ≠ '/')).reverse⟩

/-- MIME type Flask guesses from the file extension when `send_file` gets
no explicit `mimetype`. -/
def guessMime (p : String) : Option String :=
  if mp3pat.isSuffixOf p.data then some "audio/mpeg" else none

/-- Result of a convert handler: handler outcome, final file system, log
entries emitted, and the adapter configurations passed to the adapter. -/
structure ConvertOutput where
  result : HandlerResult
  fs : FileSystem
  log : List LogEntry
  calls : List YdlOpts
deriving DecidableEq, Repr

/-! ### `src/app.py` — the minimal `/convert` handler -/

/-- Line 16 of app.py: the generated output filename, the uuid plus ".mp3". -/
def app_output_filename (u : String) : String := u ++ ".mp3"

/-- Line 17 of app.py: the output path, "/tmp/" plus the filename. -/
def app_output_path (u : String) : String := "/tmp/" ++ app_output_filename u

/-- Lines 19-26 of app.py: the `ydl_opts` dictionary.  Note the template is
the full `output_path`, extension included, and the post-processor has no
`preferredquality`. -/
def app_ydl_opts (u : String) : YdlOpts where
  format := "bestaudio/best"
  outtmpl := app_output_path u
  postprocessors :=
    [{ key := "FFmpegExtractAudio", preferredcodec := "mp3", preferredquality := none }]
  quiet := none
  no_warnings := none
  noprogress := none

/-- Lines 8-34 of app.py, the `convert` handler.  Only the `ydl.download`
call is inside the `try`: a body that fails to parse raises in
`request.get_json()`, a `null` body raises `AttributeError` in
the url lookup on the `None` body, and a missing output file raises inside
`send_file` —
all three escape the handler.  There is no cleanup of the output file. -/
def app_convert (body : JsonBody) (u : String) (beh : ConvertBehavior)
    (fs : FileSystem) : ConvertOutput :=
  match body with
  | .invalid => ⟨.escaped "BadRequest: failed to decode JSON object", fs, [], []⟩
  | .jnull => ⟨.escaped "AttributeError: NoneType has no attribute get", fs, [], []⟩
  | .obj none => ⟨.resp ⟨400, errBody "No URL provided"⟩, fs, [], []⟩
  | .obj (some url) =>
    if url = "" then ⟨.resp ⟨400, errBody "No URL provided"⟩, fs, [], []⟩
    else
      let opts := app_ydl_opts u
      match beh.outcome with
      | .raises msg => ⟨.resp ⟨500, errBody msg⟩, fs, [], [opts]⟩
      | .completes wrote =>
        let fs1 := cond wrote (addPath (app_output_path u) fs) fs
        if existsPath (app_output_path u) fs1 then
          ⟨.resp ⟨200, .file (app_output_path u) (basename (app_output_path u))
              (guessMime (app_output_path u))⟩, fs1, [], [opts]⟩
        else
          ⟨.escaped "FileNotFoundError", fs1, [], [opts]⟩

/-! ### `src/youtube_converter_server.py` -/

/-- Constant of youtube_converter_server.py: the shared temporary directory. -/
def TEMP_DIR : String := "/tmp"

/-- Line 76 of youtube_converter_server.py: the generated filename, the
uuid plus ".mp3". -/
def ys_filename (u : String) : String := u ++ ".mp3"

/-- Line 39 (file line 77): `output_path = os.path.join(TEMP_DIR, filename)`. -/
def ys_output_path (u : String) : String := TEMP_DIR ++ "/" ++ ys_filename u

/-- Output template handed to the adapter: the output path with every
occurrence of ".mp3" stripped, as Python computes it. -/
def ys_outtmpl (u : String) : String := removeMp3 (ys_output_path u)

/-- Lines 80-91 of the file: the `ydl_opts` dictionary. -/
def ys_ydl_opts (u : String) : YdlOpts where
  format := "bestaudio/best"
  postprocessors :=
    [{ key := "FFmpegExtractAudio", preferredcodec := "mp3",
       preferredquality := some "192" }]
  outtmpl := ys_outtmpl u
  quiet := some false
  no_warnings := some false
  noprogress := some true

/-- File line 99: the path where the finished file is expected, the template
plus ".mp3". -/
def ys_actual_output_path (u : String) : String := ys_outtmpl u ++ ".mp3"

/-- The message str(e) carries when `request.json` fails to parse. -/
def jsonParseMsg : String := "400 Bad Request: failed to decode JSON object"

/-- File lines 63-123, the `convert_youtube` handler.  The whole body is
inside `try/except/finally`; the validation rejects a falsy or url-less
body but lets an empty-string `url` through; the `finally` block deletes
`actual_output_path` only when that variable was assigned (i.e. the
download completed) and the file exists, and turns a deletion failure into
a warning-level log entry. -/
def ys_convert (body : JsonBody) (u : String) (beh : ConvertBehavior)
    (fs : FileSystem) : ConvertOutput :=
  match body with
  | .invalid =>
      ⟨.resp ⟨500, errBody jsonParseMsg⟩, fs,
        [(.error, "Error converting video: " ++ jsonParseMsg)], []⟩
  | .jnull => ⟨.resp ⟨400, errBody "No URL provided"⟩, fs, [], []⟩
  | .obj none => ⟨.resp ⟨400, errBody "No URL provided"⟩, fs, [], []⟩
  | .obj (some url) =>
      let opts := ys_ydl_opts u
      let path := ys_actual_output_path u
      let pre : List LogEntry :=
        [(.info, "Received conversion request for URL: " ++ url),
         (.info, "Starting download and conversion to: " ++ ys_output_path u)]
      match beh.outcome with
      | .raises msg =>
          ⟨.resp ⟨500, errBody msg⟩, fs,
            pre ++ [(.error, "Error converting video: " ++ msg)], [opts]⟩
      | .completes wrote =>
          let fs1 := cond wrote (addPath path fs) fs
          if existsPath path fs1 then
            cond beh.rmFails
              ⟨.resp ⟨200, .file path (ys_filename u) (some "audio/mpeg")⟩, fs1,
                pre ++ [(.info, "Conversion successful, sending file: " ++ path),
                  (.warning, "Failed to delete temporary file: " ++ beh.rmMsg)],
                [opts]⟩
              ⟨.resp ⟨200, .file path (ys_filename u) (some "audio/mpeg")⟩,
                removePath path fs1,
                pre ++ [(.info, "Conversion successful, sending file: " ++ path),
                  (.info, "Deleted temporary file: " ++ path)], [opts]⟩
          else
            ⟨.resp ⟨500, errBody "Failed to convert video"⟩, fs1,
              pre ++ [(.error, "Output file not found at: " ++ path)], [opts]⟩

/-- Behaviour of one adapter metadata-extraction call. -/
inductive ExtractOutcome
  | raises (msg : String)
  | ok (meta : JObj)
deriving DecidableEq, Repr

/-- Result of the info handler: outcome, final file system, and whether the
adapter was invoked. -/
structure InfoOutput where
  result : HandlerResult
  fs : FileSystem
  called : Bool
deriving DecidableEq, Repr

/-- Python `info.get(k)` followed by jsonify: an absent key becomes `null`. -/
def jget (meta : JObj) (k : String) : JVal := (meta.lookup k).getD .null

/-- File lines 125-159, the `get_video_info` handler: missing or empty
`url` query parameter gives 400; an adapter exception gives 500; otherwise
the metadata is projected to five fields, absent ones as `null`.  The file
system is returned untouched: the call is metadata-only. -/
def get_video_info (urlParam : Option String) (beh : ExtractOutcome)
    (fs : FileSystem) : InfoOutput :=
  match urlParam with
  | none => ⟨.resp ⟨400, errBody "No URL provided"⟩, fs, false⟩
  | some url =>
    if url = "" then ⟨.resp ⟨400, errBody "No URL provided"⟩, fs, false⟩
    else
      match beh with
      | .raises msg => ⟨.resp ⟨500, errBody msg⟩, fs, true⟩
      | .ok meta =>
          ⟨.resp ⟨200, .json
            [("id", jget meta "id"), ("title", jget meta "title"),
             ("uploader", jget meta "uploader"), ("duration", jget meta "duration"),
             ("thumbnail", jget meta "thumbnail")]⟩, fs, true⟩

/-- File lines 58-61, the `ping` handler: a constant 200 response. -/
def ping : HttpResponse :=
  ⟨200, .json [("status", .str "ok"), ("message", .str "Server is running")]⟩

/-- Returns true iff the outcome is a response (no exception escaped). -/
def HandlerResult.noEscape : HandlerResult → Bool
  | .resp _ => true
  | .escaped _ => false

/-- Returns true iff the body is a JSON object with a single `error` field. -/
def isErrBody : RBody → Bool
  | .json [("error", .str _)] => true
  | _ => false

/-- The error-propagation contract of the spec: the handler produced a
response (nothing escaped), its status is 200, 400 or 500, and any
non-200 response carries a JSON `error` body. -/
def errorContract : HandlerResult → Bool
  | .resp r =>
      (r.status == 200 || r.status == 400 || r.status == 500) &&
      (r.status == 200 || isErrBody r.body)
  | .escaped _ => false


/-! ### Helper lemmas -/

theorem stripMp3_cons (c : Char) (rest : List Char) (h : c ≠ '.') :
    stripMp3 (c :: rest) = c :: stripMp3 rest := by
  rw [stripMp3.eq_def]
  split
  · next heq => injection heq with h1 _; exact absurd h1 h
  · next heq => injection heq with h1 h2; rw [h1, h2]
  · next heq => exact absurd heq (List.cons_ne_nil _ _)

theorem stripMp3_append_pat (l : List Char) (h : '.' ∉ l) :
    stripMp3 (l ++ mp3pat) = l := by
  induction l with
  | nil => rfl
  | cons c cs ih =>
    have hc : c ≠ '.' := fun hc => h (hc ▸ List.mem_cons_self c cs)
    have hcs : '.' ∉ cs := fun hm => h (List.mem_cons_of_mem c hm)
    rw [List.cons_append, stripMp3_cons c (cs ++ mp3pat) hc, ih hcs]

theorem ys_outtmpl_eq (u : String) (h : '.' ∉ u.data) :
    ys_outtmpl u = TEMP_DIR ++ "/" ++ u := by
  apply String.ext
  show stripMp3 (TEMP_DIR ++ "/" ++ ys_filename u).data = _
  rw [ys_filename]
  have h1 : (TEMP_DIR ++ "/" ++ (u ++ ".mp3")).data
      = ((TEMP_DIR ++ "/" ++ u).data) ++ mp3pat := by
    simp [String.data_append, List.append_assoc]
    rfl
  rw [h1]
  apply stripMp3_append_pat
  intro hm
  have h2 : (TEMP_DIR ++ "/" ++ u).data = ('/' :: 't' :: 'm' :: 'p' :: '/' :: u.data) := by
    simp [String.data_append]
    rfl
  rw [h2] at hm
  simp at hm
  exact absurd hm h

theorem takeWhile_append_of_all {p : Char → Bool} (l1 l2 : List Char)
    (h : ∀ c ∈ l1, p c = true) :
    (l1 ++ l2).takeWhile p = l1 ++ l2.takeWhile p := by
  induction l1 with
  | nil => simp
  | cons c cs ih =>
    rw [List.cons_append, List.takeWhile_cons, if_pos (h c (List.mem_cons_self c cs)),
      ih (fun d hd => h d (List.mem_cons_of_mem c hd)), List.cons_append]

theorem basename_app (u : String) (h : '/' ∉ u.data) :
    basename (app_output_path u) = app_output_filename u := by
  apply String.ext
  show ((app_output_path u).data.reverse.takeWhile (fun c => c ≠ '/')).reverse
      = (app_output_filename u).data
  have hd : (app_output_path u).data
      = ['/', 't', 'm', 'p', '/'] ++ (u.data ++ mp3pat) := by
    simp [app_output_path, app_output_filename, String.data_append]
    rfl
  rw [hd]
  rw [List.reverse_append]
  have hall : ∀ c ∈ (u.data ++ mp3pat).reverse, (fun c => decide (c ≠ '/')) c = true := by
    intro c hc
    rw [List.mem_reverse, List.mem_append] at hc
    rcases hc with hc | hc
    · simp
      intro he
      exact h (he ▸ hc)
    · fin_cases hc <;> simp
  rw [takeWhile_append_of_all _ _ hall]
  have h5 : (['/', 't', 'm', 'p', '/'] : List Char).reverse.takeWhile
      (fun c => decide (c ≠ '/')) = [] := by decide
  rw [h5, List.append_nil, List.reverse_reverse]
  simp [app_output_filename, String.data_append]
  rfl

theorem existsPath_addPath (p : String) (fs : FileSystem) :
    existsPath p (addPath p fs) = true := by
  simp [existsPath, addPath, List.contains_cons]

theorem existsPath_removePath (p : String) (fs : FileSystem) :
    existsPath p (removePath p fs) = false := by
  rw [existsPath, Bool.eq_false_iff]
  intro hc
  have hm : p ∈ removePath p fs := List.elem_iff.mp hc
  rw [removePath, List.mem_filter] at hm
  simp at hm

theorem append_affix_inj (pre suf u1 u2 : String)
    (h : pre ++ (u1 ++ suf) = pre ++ (u2 ++ suf)) : u1 = u2 := by
  apply String.ext
  have hd := congrArg String.data h
  simp only [String.data_append] at hd
  exact List.append_cancel_right (List.append_cancel_left hd)

theorem append_suffix_inj (suf u1 u2 : String) (h : u1 ++ suf = u2 ++ suf) :
    u1 = u2 := by
  apply String.ext
  have hd := congrArg String.data h
  simp only [String.data_append] at hd
  exact List.append_cancel_right hd

/-! ### Claim theorems -/

/-- C9: the liveness check handler is a constant: it always returns status
200 with the fixed payload carrying a status field, independent of any
other system state (it reads none). -/
theorem T_C9_ping :
    ping = ⟨200, .json [("status", .str "ok"), ("message", .str "Server is running")]⟩ := rfl

/-- C1 (counterexample): a convert request to youtube_converter_server whose
object body carries an empty-string url is not rejected: the handler
invokes the adapter (one configuration is recorded) and answers 500 from
the adapter failure, not 400. -/
theorem T_C1_counterexample :
    (ys_convert (.obj (some "")) "a0" ⟨.raises "boom", false, "", []⟩ []).result
      = .resp ⟨500, errBody "boom"⟩
  ∧ (ys_convert (.obj (some "")) "a0" ⟨.raises "boom", false, "", []⟩ []).calls
      = [ys_ydl_opts "a0"]
  ∧ ([ys_ydl_opts "a0"] : List YdlOpts) ≠ [] := by
  refine ⟨rfl, rfl, by decide⟩

/-- C1 (amended): the app.py convert handler rejects an object body with an
absent or empty url with 400 and an error field, without invoking the
adapter; the youtube_converter_server convert handler does so for a null
body or an object body lacking the url field; the info handler does so for
a missing or empty url query parameter; but an empty-string url in an
object body passes the youtube_converter_server validation and the adapter
is invoked. -/
theorem T_C1_amended (u : String) (beh : ConvertBehavior) (ebeh : ExtractOutcome)
    (fs : FileSystem) :
    app_convert (.obj none) u beh fs = ⟨.resp ⟨400, errBody "No URL provided"⟩, fs, [], []⟩
  ∧ app_convert (.obj (some "")) u beh fs = ⟨.resp ⟨400, errBody "No URL provided"⟩, fs, [], []⟩
  ∧ ys_convert (.obj none) u beh fs = ⟨.resp ⟨400, errBody "No URL provided"⟩, fs, [], []⟩
  ∧ ys_convert .jnull u beh fs = ⟨.resp ⟨400, errBody "No URL provided"⟩, fs, [], []⟩
  ∧ get_video_info none ebeh fs = ⟨.resp ⟨400, errBody "No URL provided"⟩, fs, false⟩
  ∧ get_video_info (some "") ebeh fs = ⟨.resp ⟨400, errBody "No URL provided"⟩, fs, false⟩
  ∧ (ys_convert (.obj (some "")) u beh fs).calls = [ys_ydl_opts u] := by
  obtain ⟨outc, rmf, rmm, meta⟩ := beh
  refine ⟨rfl, rfl, rfl, rfl, rfl, rfl, ?_⟩
  cases outc with
  | raises msg => rfl
  | completes wrote =>
    cases wrote <;> cases rmf <;> (dsimp only [ys_convert, Bool.cond_true, Bool.cond_false]; split <;> rfl)

/-- C2 (counterexample): a successful convert request to app.py leaves the
temporary output file on disk — app.py performs no cleanup. -/
theorem T_C2_counterexample :
    (app_convert (.obj (some "u1")) "a0" ⟨.completes true, false, "", []⟩ []).result
      = .resp ⟨200, .file (app_output_path "a0") "a0.mp3" (some "audio/mpeg")⟩
  ∧ (app_convert (.obj (some "u1")) "a0" ⟨.completes true, false, "", []⟩ []).fs
      = [app_output_path "a0"]
  ∧ existsPath (app_output_path "a0")
      ((app_convert (.obj (some "u1")) "a0" ⟨.completes true, false, "", []⟩ []).fs) = true := by
  refine ⟨by decide, by decide, by decide⟩

/-- C2 (amended): for a convert request to youtube_converter_server in
which the adapter call succeeds and produced the output file, the handler
deletes the temporary file, so it no longer exists afterwards; if the
deletion itself fails, the response is unchanged (still the success
response, nothing escapes) and a warning-level log entry is emitted. -/
theorem T_C2_amended (url u rmMsg : String) (meta : JObj) (fs : FileSystem) :
    existsPath (ys_actual_output_path u)
      ((ys_convert (.obj (some url)) u ⟨.completes true, false, rmMsg, meta⟩ fs).fs) = false
  ∧ (ys_convert (.obj (some url)) u ⟨.completes true, true, rmMsg, meta⟩ fs).result
      = (ys_convert (.obj (some url)) u ⟨.completes true, false, rmMsg, meta⟩ fs).result
  ∧ ((LogLevel.warning, "Failed to delete temporary file: " ++ rmMsg)
      ∈ (ys_convert (.obj (some url)) u ⟨.completes true, true, rmMsg, meta⟩ fs).log)
  ∧ (ys_convert (.obj (some url)) u ⟨.completes true, true, rmMsg, meta⟩ fs).result.noEscape
      = true := by
  have hex := existsPath_addPath (ys_actual_output_path u) fs
  refine ⟨?_, ?_, ?_, ?_⟩
  · dsimp only [ys_convert, Bool.cond_true, Bool.cond_false]
    rw [if_pos hex]
    exact existsPath_removePath _ _
  · dsimp only [ys_convert, Bool.cond_true, Bool.cond_false]
    rw [if_pos hex, if_pos hex]
  · dsimp only [ys_convert, Bool.cond_true, Bool.cond_false]
    rw [if_pos hex]
    simp
  · dsimp only [ys_convert, Bool.cond_true, Bool.cond_false]
    rw [if_pos hex]
    rfl

theorem append_prefix_inj (pre u1 u2 : String) (h : pre ++ u1 = pre ++ u2) : u1 = u2 := by
  apply String.ext
  have hd := congrArg String.data h
  simp only [String.data_append] at hd
  exact List.append_cancel_left hd

/-- C3 (counterexample): the configuration app.py passes to the adapter has
an output template that still carries the ".mp3" extension and a
post-processing stage with no quality target, contradicting the claim for
that handler. -/
theorem T_C3_counterexample :
    (app_convert (.obj (some "u1")) "a0" ⟨.raises "boom", false, "", []⟩ []).calls
      = [app_ydl_opts "a0"]
  ∧ (app_ydl_opts "a0").outtmpl = "/tmp/a0.mp3"
  ∧ (app_ydl_opts "a0").outtmpl ≠ "/tmp/a0"
  ∧ (app_ydl_opts "a0").postprocessors
      = [{ key := "FFmpegExtractAudio", preferredcodec := "mp3", preferredquality := none }] := by
  refine ⟨rfl, rfl, by decide, rfl⟩

/-- C3 (amended): the youtube_converter_server handler invokes the adapter
exactly once with format "bestaudio/best", a single MP3 post-processing
stage at fixed quality "192", and an output template equal to the
generated name without its extension (the adapter appends ".mp3"); the
app.py handler also calls the adapter once with format "bestaudio/best"
and a single MP3 stage, but its template is the full path with extension
and its post-processor has no quality target. -/
theorem T_C3_amended (url u : String) (beh : ConvertBehavior) (fs : FileSystem)
    (hu : url ≠ "") (hd : '.' ∉ u.data) :
    (ys_convert (.obj (some url)) u beh fs).calls = [ys_ydl_opts u]
  ∧ (ys_ydl_opts u).format = "bestaudio/best"
  ∧ (ys_ydl_opts u).postprocessors
      = [{ key := "FFmpegExtractAudio", preferredcodec := "mp3", preferredquality := some "192" }]
  ∧ (ys_ydl_opts u).outtmpl = TEMP_DIR ++ "/" ++ u
  ∧ ys_actual_output_path u = (ys_ydl_opts u).outtmpl ++ ".mp3"
  ∧ (app_convert (.obj (some url)) u beh fs).calls = [app_ydl_opts u]
  ∧ (app_ydl_opts u).format = "bestaudio/best"
  ∧ (app_ydl_opts u).outtmpl = app_output_path u
  ∧ (app_ydl_opts u).postprocessors
      = [{ key := "FFmpegExtractAudio", preferredcodec := "mp3", preferredquality := none }] := by
  obtain ⟨outc, rmf, rmm, meta⟩ := beh
  refine ⟨?_, rfl, rfl, ys_outtmpl_eq u hd, rfl, ?_, rfl, rfl, rfl⟩
  · cases outc with
    | raises msg => rfl
    | completes wrote =>
      cases wrote <;> cases rmf <;>
        (dsimp only [ys_convert, Bool.cond_true, Bool.cond_false]; split <;> rfl)
  · dsimp only [app_convert]
    rw [if_neg hu]
    cases outc with
    | raises msg => rfl
    | completes wrote =>
      cases wrote <;>
        (dsimp only [Bool.cond_true, Bool.cond_false]; split <;> rfl)

/-- C3 witness: the amended claim instantiated at concrete inputs. -/
theorem T_C3_witness :
    (ys_convert (.obj (some "u1")) "a0" ⟨.raises "em", false, "", []⟩ []).calls
      = [ys_ydl_opts "a0"]
  ∧ (ys_ydl_opts "a0").format = "bestaudio/best"
  ∧ (ys_ydl_opts "a0").postprocessors
      = [{ key := "FFmpegExtractAudio", preferredcodec := "mp3", preferredquality := some "192" }]
  ∧ (ys_ydl_opts "a0").outtmpl = TEMP_DIR ++ "/" ++ "a0"
  ∧ ys_actual_output_path "a0" = (ys_ydl_opts "a0").outtmpl ++ ".mp3"
  ∧ (app_convert (.obj (some "u1")) "a0" ⟨.raises "em", false, "", []⟩ []).calls
      = [app_ydl_opts "a0"]
  ∧ (app_ydl_opts "a0").format = "bestaudio/best"
  ∧ (app_ydl_opts "a0").outtmpl = app_output_path "a0"
  ∧ (app_ydl_opts "a0").postprocessors
      = [{ key := "FFmpegExtractAudio", preferredcodec := "mp3", preferredquality := none }] :=
  T_C3_amended "u1" "a0" ⟨.raises "em", false, "", []⟩ [] (by decide) (by decide)

/-- C4: when the adapter raises during a convert request with a non-empty
url, both handlers return status 500 with a JSON body whose error field is
exactly the exception text, which is non-empty whenever that text is. -/
theorem T_C4_adapter_error (url u msg rmMsg : String) (rf : Bool) (meta : JObj)
    (fs : FileSystem) (hu : url ≠ "") (hm : msg ≠ "") :
    (app_convert (.obj (some url)) u ⟨.raises msg, rf, rmMsg, meta⟩ fs).result
      = .resp ⟨500, errBody msg⟩
  ∧ (ys_convert (.obj (some url)) u ⟨.raises msg, rf, rmMsg, meta⟩ fs).result
      = .resp ⟨500, errBody msg⟩
  ∧ errBody msg = .json [("error", .str msg)]
  ∧ msg ≠ "" := by
  refine ⟨?_, rfl, rfl, hm⟩
  dsimp only [app_convert]
  rw [if_neg hu]

/-- C4 witness: the claim instantiated at concrete inputs. -/
theorem T_C4_witness :
    (app_convert (.obj (some "u1")) "a0" ⟨.raises "em", false, "", []⟩ []).result
      = .resp ⟨500, errBody "em"⟩
  ∧ (ys_convert (.obj (some "u1")) "a0" ⟨.raises "em", false, "", []⟩ []).result
      = .resp ⟨500, errBody "em"⟩
  ∧ errBody "em" = .json [("error", .str "em")]
  ∧ ("em" : String) ≠ "" :=
  T_C4_adapter_error "u1" "a0" "em" "" false [] [] (by decide) (by decide)

/-- C5 (counterexample): a convert request to app.py whose body fails to
parse as JSON raises outside the try block: the exception escapes the
handler and no JSON error body is produced. -/
theorem T_C5_counterexample :
    (app_convert .invalid "a0" ⟨.completes true, false, "", []⟩ []).result
      = .escaped "BadRequest: failed to decode JSON object"
  ∧ errorContract (app_convert .invalid "a0" ⟨.completes true, false, "", []⟩ []).result
      = false := ⟨rfl, rfl⟩

/-- C5 (amended): every request to any youtube_converter_server endpoint
(convert, info, ping) yields a response with status 200, 400 or 500 and a
JSON error body on the non-200 statuses — no exception escapes those
handlers; the app.py convert handler either meets the same contract or
lets the exception escape (unparseable body, null body, missing output
file). -/
theorem T_C5_amended (body : JsonBody) (u : String) (beh : ConvertBehavior)
    (urlParam : Option String) (ebeh : ExtractOutcome) (fs fs2 fs3 : FileSystem) :
    errorContract (ys_convert body u beh fs).result = true
  ∧ errorContract (get_video_info urlParam ebeh fs2).result = true
  ∧ errorContract (.resp ping) = true
  ∧ (errorContract (app_convert body u beh fs3).result = true
      ∨ (app_convert body u beh fs3).result.noEscape = false) := by
  obtain ⟨outc, rmf, rmm, meta⟩ := beh
  refine ⟨?_, ?_, rfl, ?_⟩
  · cases body with
    | invalid => rfl
    | jnull => rfl
    | obj url? =>
      cases url? with
      | none => rfl
      | some url =>
        cases outc with
        | raises msg => rfl
        | completes wrote =>
          cases wrote <;> cases rmf <;>
            (dsimp only [ys_convert, Bool.cond_true, Bool.cond_false]; split <;> rfl)
  · cases urlParam with
    | none => rfl
    | some url =>
      by_cases hu : url = ""
      · subst hu; rfl
      · dsimp only [get_video_info]
        rw [if_neg hu]
        cases ebeh with
        | raises msg => rfl
        | ok meta2 => rfl
  · cases body with
    | invalid => right; rfl
    | jnull => right; rfl
    | obj url? =>
      cases url? with
      | none => left; rfl
      | some url =>
        by_cases hu : url = ""
        · subst hu; left; rfl
        · dsimp only [app_convert]
          rw [if_neg hu]
          cases outc with
          | raises msg => left; rfl
          | completes wrote =>
            cases wrote <;>
              (dsimp only [Bool.cond_true, Bool.cond_false]
               split
               · left; rfl
               · right; rfl)

/-- C6: an info request with a non-empty url whose metadata extraction
succeeds returns 200 with exactly the five fields id, title, uploader,
duration and thumbnail, each absent upstream key mapped to null, and the
file system is untouched. -/
theorem T_C6_info (url : String) (meta : JObj) (fs : FileSystem) (hu : url ≠ "") :
    get_video_info (some url) (.ok meta) fs
      = ⟨.resp ⟨200, .json
          [("id", jget meta "id"), ("title", jget meta "title"),
           ("uploader", jget meta "uploader"), ("duration", jget meta "duration"),
           ("thumbnail", jget meta "thumbnail")]⟩, fs, true⟩
  ∧ (∀ k, meta.lookup k = none → jget meta k = JVal.null)
  ∧ (get_video_info (some url) (.ok meta) fs).fs = fs := by
  refine ⟨?_, ?_, ?_⟩
  · dsimp only [get_video_info]
    rw [if_neg hu]
  · intro k hk
    rw [jget, hk]
    rfl
  · dsimp only [get_video_info]
    rw [if_neg hu]

/-- C6 witness: the claim instantiated at concrete inputs. -/
theorem T_C6_witness :
    get_video_info (some "u1") (.ok [("id", JVal.str "x1")]) ["f1"]
      = ⟨.resp ⟨200, .json
          [("id", jget [("id", JVal.str "x1")] "id"),
           ("title", jget [("id", JVal.str "x1")] "title"),
           ("uploader", jget [("id", JVal.str "x1")] "uploader"),
           ("duration", jget [("id", JVal.str "x1")] "duration"),
           ("thumbnail", jget [("id", JVal.str "x1")] "thumbnail")]⟩, ["f1"], true⟩
  ∧ (∀ k, ([("id", JVal.str "x1")] : JObj).lookup k = none
      → jget [("id", JVal.str "x1")] k = JVal.null)
  ∧ (get_video_info (some "u1") (.ok [("id", JVal.str "x1")]) ["f1"]).fs = ["f1"] :=
  T_C6_info "u1" [("id", JVal.str "x1")] ["f1"] (by decide)

/-- C7 (counterexample): when the adapter completes but the output file is
missing, the app.py handler does not return a 500 JSON error: it calls
send_file on the missing path and the exception escapes. -/
theorem T_C7_counterexample :
    (app_convert (.obj (some "u1")) "a0" ⟨.completes false, false, "", []⟩ []).result
      = .escaped "FileNotFoundError"
  ∧ ((app_convert (.obj (some "u1")) "a0" ⟨.completes false, false, "", []⟩ []).result).noEscape
      = false := ⟨rfl, rfl⟩

/-- C7 (amended): when the adapter completes without raising but the
expected output file does not exist, the youtube_converter_server handler
returns status 500 with a JSON error body rather than streaming a
non-existent file. -/
theorem T_C7_amended (url u rmMsg : String) (rf : Bool) (meta : JObj) (fs : FileSystem)
    (h : existsPath (ys_actual_output_path u) fs = false) :
    (ys_convert (.obj (some url)) u ⟨.completes false, rf, rmMsg, meta⟩ fs).result
      = .resp ⟨500, errBody "Failed to convert video"⟩
  ∧ isErrBody (errBody "Failed to convert video") = true := by
  refine ⟨?_, rfl⟩
  have hne : ¬ existsPath (ys_actual_output_path u) fs = true := by simp [h]
  dsimp only [ys_convert, Bool.cond_true, Bool.cond_false]
  rw [if_neg hne]

/-- C7 witness: the amended claim instantiated at concrete inputs. -/
theorem T_C7_witness :
    (ys_convert (.obj (some "u1")) "a0" ⟨.completes false, false, "", []⟩ []).result
      = .resp ⟨500, errBody "Failed to convert video"⟩
  ∧ isErrBody (errBody "Failed to convert video") = true :=
  T_C7_amended "u1" "a0" "" false [] [] (by decide)

/-- C8: filename generation is collision-free: distinct generated
identifiers give distinct temporary filenames and distinct output paths in
both servers (for the post-replace path, under the invariant that a
generated identifier contains no dot), so two concurrent conversions never
write to the same path. -/
theorem T_C8_unique (u1 u2 : String) (h : u1 ≠ u2) (h1 : '.' ∉ u1.data)
    (h2 : '.' ∉ u2.data) :
    app_output_filename u1 ≠ app_output_filename u2
  ∧ app_output_path u1 ≠ app_output_path u2
  ∧ ys_filename u1 ≠ ys_filename u2
  ∧ ys_output_path u1 ≠ ys_output_path u2
  ∧ ys_actual_output_path u1 ≠ ys_actual_output_path u2 := by
  refine ⟨?_, ?_, ?_, ?_, ?_⟩
  · exact fun he => h (append_suffix_inj ".mp3" u1 u2 he)
  · exact fun he => h (append_affix_inj "/tmp/" ".mp3" u1 u2 he)
  · exact fun he => h (append_suffix_inj ".mp3" u1 u2 he)
  · exact fun he => h (append_affix_inj (TEMP_DIR ++ "/") ".mp3" u1 u2 he)
  · intro he
    simp only [ys_actual_output_path] at he
    rw [ys_outtmpl_eq u1 h1, ys_outtmpl_eq u2 h2] at he
    exact h (append_prefix_inj (TEMP_DIR ++ "/") u1 u2 (append_suffix_inj ".mp3" _ _ he))

/-- C8 witness: the claim instantiated at concrete inputs. -/
theorem T_C8_witness :
    app_output_filename "a0" ≠ app_output_filename "b1"
  ∧ app_output_path "a0" ≠ app_output_path "b1"
  ∧ ys_filename "a0" ≠ ys_filename "b1"
  ∧ ys_output_path "a0" ≠ ys_output_path "b1"
  ∧ ys_actual_output_path "a0" ≠ ys_actual_output_path "b1" :=
  T_C8_unique "a0" "b1" (by decide) (by decide) (by decide)

/-- C10: the download name of a successful convert response is exactly the
generated uuid filename with the ".mp3" extension in both servers (app.py
derives it as the basename of the output path), and both handlers are
entirely independent of the metadata the adapter extracted, so the name is
never derived from the video title. -/
theorem T_C10_download_name (url u rmMsg : String) (m1 m2 : JObj) (rf : Bool)
    (o : DlOutcome) (body : JsonBody) (fs : FileSystem)
    (hu : url ≠ "") (hs : '/' ∉ u.data) :
    (ys_convert (.obj (some url)) u ⟨.completes true, rf, rmMsg, m1⟩ fs).result
      = .resp ⟨200, .file (ys_actual_output_path u) (ys_filename u) (some "audio/mpeg")⟩
  ∧ ys_filename u = u ++ ".mp3"
  ∧ ys_convert body u ⟨o, rf, rmMsg, m1⟩ fs = ys_convert body u ⟨o, rf, rmMsg, m2⟩ fs
  ∧ app_convert body u ⟨o, rf, rmMsg, m1⟩ fs = app_convert body u ⟨o, rf, rmMsg, m2⟩ fs
  ∧ (app_convert (.obj (some url)) u ⟨.completes true, rf, rmMsg, m1⟩ fs).result
      = .resp ⟨200, .file (app_output_path u) (u ++ ".mp3") (guessMime (app_output_path u))⟩ := by
  refine ⟨?_, rfl, ?_, ?_, ?_⟩
  · cases rf <;>
      (dsimp only [ys_convert, Bool.cond_true, Bool.cond_false]
       rw [if_pos (existsPath_addPath _ _)])
  · cases body with
    | invalid => rfl
    | jnull => rfl
    | obj url? =>
      cases url? with
      | none => rfl
      | some url2 =>
        cases o with
        | raises msg => rfl
        | completes wrote =>
          cases wrote <;> cases rf <;>
            dsimp only [ys_convert, Bool.cond_true, Bool.cond_false]
  · cases body with
    | invalid => rfl
    | jnull => rfl
    | obj url? =>
      cases url? with
      | none => rfl
      | some url2 =>
        cases o with
        | raises msg => rfl
        | completes wrote =>
          cases wrote <;>
            dsimp only [app_convert, Bool.cond_true, Bool.cond_false]
  · dsimp only [app_convert, Bool.cond_true, Bool.cond_false]
    rw [if_neg hu, if_pos (existsPath_addPath _ _), basename_app u hs]
    rfl

/-- C10 witness: the claim instantiated at concrete inputs. -/
theorem T_C10_witness :
    (ys_convert (.obj (some "u1")) "a0" ⟨.completes true, false, "", [("title", JVal.str "t1")]⟩ []).result
      = .resp ⟨200, .file (ys_actual_output_path "a0") (ys_filename "a0") (some "audio/mpeg")⟩
  ∧ ys_filename "a0" = "a0" ++ ".mp3"
  ∧ ys_convert .jnull "a0" ⟨.raises "em", false, "", [("title", JVal.str "t1")]⟩ []
      = ys_convert .jnull "a0" ⟨.raises "em", false, "", []⟩ []
  ∧ app_convert .jnull "a0" ⟨.raises "em", false, "", [("title", JVal.str "t1")]⟩ []
      = app_convert .jnull "a0" ⟨.raises "em", false, "", []⟩ []
  ∧ (app_convert (.obj (some "u1")) "a0" ⟨.completes true, false, "", [("title", JVal.str "t1")]⟩ []).result
      = .resp ⟨200, .file (app_output_path "a0") ("a0" ++ ".mp3") (guessMime (app_output_path "a0"))⟩ :=
  T_C10_download_name "u1" "a0" "" [("title", JVal.str "t1")] [] false (.raises "em") .jnull []
    (by decide) (by decide)

end ArpaVibe
